import Mathlib

/-! Overview:
Verification of the context-selection and citation-grounding pipeline of a
retrieval-augmented chat backend.  The definitions below are a shallow
embedding of the Python source:

* `src/backend/main.py`            - intent flags, search dispatch, context selection
* `src/backend/services/llm_service.py`   - prompt assembly, citation extraction, fallback
* `src/backend/services/azure_search_service.py` - search-result post-processing

Text is embedded as `List Char` (Python strings are sequences of code
points); relevance scores are embedded as `Rat` (the Python code only ever
compares scores, never computes with them, so any float input is represented
exactly by its rational value).  Dictionaries with optional keys become
structures with `Option` fields.  External collaborators (Azure SDK calls,
base64/url decoding) are parameters of the model.
-/

/-! Section: Basic string helpers (Python semantics) -/

/-- Python substring test `pat in hay` (empty pattern is contained in
everything). -/
def containsSub (pat : List Char) : List Char → Bool
  | [] => pat.isEmpty
  | c :: t => pat.isPrefixOf (c :: t) || containsSub pat t

/-- One step of Python `str.split()` word counting: `inWord` records whether
the previous character was inside a word. -/
def wordCountAux : List Char → Bool → Nat
  | [], _ => 0
  | c :: cs, inWord =>
    if c.isWhitespace then wordCountAux cs false
    else (if inWord then 0 else 1) + wordCountAux cs true

/-- The model of `len(s.split())` in Python: the number of maximal whitespace-free runs. -/
def wordCount (l : List Char) : Nat := wordCountAux l false

/-- Python `str.strip()`: drop whitespace from both ends. -/
def stripEnds (l : List Char) : List Char :=
  ((l.dropWhile Char.isWhitespace).reverse.dropWhile Char.isWhitespace).reverse

/-- The model of `request.message.lower().strip()` from `main.py` line 69 (ASCII
lower-casing; all intent phrases in the source are ASCII). -/
def queryLower (msg : String) : List Char :=
  stripEnds ((msg.toList).map Char.toLower)

/-! Section: Data model -/

/-- A session-scoped uploaded document record, as stored by the upload
endpoint in `main.py` (`session_documents[session_id]` entries). -/
structure UploadedRec where
  filename : String
  content : List Char
  page_count : Nat
deriving DecidableEq

/-- The unified context-document shape flowing into the LLM service: the
dict `{content, filename, score, source_type}` plus the optional keys read
by `_build_prompt` (`chunk_number`, `parent_id`, `download_url`). -/
structure CtxDoc where
  content : List Char
  filename : String
  source_type : String
  score : Rat
  chunk_number : Option Nat := none
  parent_id : Option String := none
  download_url : Option String := none
deriving DecidableEq

/-- One value of the `doc_mapping` dict built by `_build_prompt`. -/
structure MapEntry where
  filename : String
  type : String
  download_url : Option String
  chunks : List Nat
deriving DecidableEq

/-- One entry of the `sources` list returned to the caller. -/
structure SourceEntry where
  filename : String
  type : String
  download_url : Option String
  citation_number : Nat
deriving DecidableEq

/-! Section: Intent classification (`main.py` lines 79-134) -/

/-- The model of `casual_queries` from `main.py`. -/
def casual_queries : List String :=
  ["hi", "hello", "hey", "how are you", "good morning", "good afternoon",
   "good evening", "thanks", "thank you", "bye", "goodbye"]

/-- The model of `upload_only_patterns` from `main.py`. -/
def upload_only_patterns : List String :=
  ["upload", "uploaded", "the upload",
   "describe the upload", "explain the upload", "summarize the upload",
   "about the upload", "uploaded document", "uploaded file",
   "what is this", "what\x27s this", "describe this", "explain this",
   "summarize this", "read this", "about this",
   "this document", "this file", "the document", "the file",
   "my document", "my file", "document i uploaded", "file i uploaded",
   "the document i", "the file i",
   "what is the uploaded", "what\x27s the uploaded", "what does this",
   "what\x27s in this", "what is in this", "tell me about this"]

/-- The model of `comparison_patterns` from `main.py`. -/
def comparison_patterns : List String :=
  ["compare", "compliant", "comply", "compliance", "match", "matches",
   "differ", "difference", "vs", "versus", "according to our",
   "does this follow", "is this correct", "does this meet",
   "against our", "with our policy", "standard agreement",
   "does it comply", "is it compliant", "meets our", "follows our"]

/-- The model of `policy_patterns` from `main.py`. -/
def policy_patterns : List String :=
  ["our policy", "our policies", "our handbook", "our procedure",
   "company policy", "how to", "how do i", "what are the steps",
   "what is the process", "standard procedure", "disaster management",
   "marketing", "close a deal", "record video", "laws", "regulations",
   "what are adara", "what is adara", "adara\x27s policies", "adara policies"]

/-- The model of `is_casual` (`main.py` line 84). -/
def is_casual (q : List Char) : Bool :=
  (casual_queries.any fun p => containsSub p.toList q) && wordCount q ≤ 5

/-- The model of `is_upload_only` (`main.py` lines 107-110). -/
def is_upload_only (q : List Char) (hasDocs : Bool) : Bool :=
  hasDocs && (upload_only_patterns.any fun p => containsSub p.toList q)

/-- The model of `is_comparison` (`main.py` line 120). -/
def is_comparison (q : List Char) : Bool :=
  comparison_patterns.any fun p => containsSub p.toList q

/-- The model of `is_policy_only` (`main.py` lines 130-134). -/
def is_policy_only (q : List Char) (hasDocs : Bool) : Bool :=
  (policy_patterns.any fun p => containsSub p.toList q)
    && !is_comparison q && !is_upload_only q hasDocs

/-! Section: Session context and search dispatch (`main.py` lines 138-187) -/

/-- Conversion of a stored upload into a context document
(`main.py` lines 141-149): fixed score 10.0, source type `uploaded`. -/
def mkUploadCtx (r : UploadedRec) : CtxDoc :=
  { content := r.content, filename := r.filename,
    source_type := "uploaded", score := 10 }

/-- The model of `session_context` (`main.py` lines 139-150); the store lookup is `none`
when the session id is absent from `session_documents`. -/
def sessionContext (store : Option (List UploadedRec)) : List CtxDoc :=
  match store with
  | some l => l.map mkUploadCtx
  | none => []

/-- The model of `has_uploaded_docs` (`main.py` lines 72-74). -/
def hasUploadedDocs (store : Option (List UploadedRec)) : Bool := store.isSome

/-- Whether the `elif` chain of `main.py` lines 155-181 reaches a branch
that awaits `search_service.search`. -/
def searchInvoked (q : List Char) (hasDocs : Bool) (sessionCtx : List CtxDoc) : Bool :=
  if is_casual q then false
  else if is_upload_only q hasDocs && !sessionCtx.isEmpty then false
  else if is_policy_only q hasDocs then true
  else if is_comparison q then true
  else if sessionCtx.isEmpty then true
  else true

/-- The model of `doc["source_type"] = "company"` applied to every search result
(`main.py` lines 184-185). -/
def markCompany (d : CtxDoc) : CtxDoc := { d with source_type := "company" }

/-- The model of `indexed_results` as seen by the context-selection block: empty when no
search branch ran, otherwise the search output marked as company docs. -/
def indexedResults (q : List Char) (hasDocs : Bool) (sessionCtx : List CtxDoc)
    (searchOut : List CtxDoc) : List CtxDoc :=
  if searchInvoked q hasDocs sessionCtx then searchOut.map markCompany else []

/-! Section: Context selection (`main.py` lines 189-218) -/

/-- The `SMART CONTEXT SELECTION` if/elif chain of `main.py`; the
relevance floors 2.5 and 3.0 are the exact rationals `mkRat 5 2` and `3`. -/
def selectContext (q : List Char) (hasDocs : Bool)
    (sessionCtx indexed : List CtxDoc) : List CtxDoc :=
  if is_upload_only q hasDocs && !sessionCtx.isEmpty then
    sessionCtx
  else if is_policy_only q hasDocs && !is_comparison q then
    indexed
  else if is_comparison q && !sessionCtx.isEmpty && !indexed.isEmpty then
    sessionCtx ++ (indexed.filter fun d => mkRat 5 2 < d.score).take 3
  else if !sessionCtx.isEmpty && !indexed.isEmpty then
    let filtered := indexed.filter fun d => (3 : Rat) < d.score
    if !filtered.isEmpty then sessionCtx ++ filtered.take 2 else sessionCtx
  else
    sessionCtx ++ indexed

/-- The whole context pipeline of the `/api/chat` handler: intent flags,
search dispatch, selection.  `searchOut` is what the search collaborator
would return if invoked. -/
def chatSelectedContext (msg : String) (store : Option (List UploadedRec))
    (searchOut : List CtxDoc) : List CtxDoc :=
  let q := queryLower msg
  let hasDocs := hasUploadedDocs store
  let sctx := sessionContext store
  selectContext q hasDocs sctx (indexedResults q hasDocs sctx searchOut)

/-- The context actually passed to `generate_response`
(`main.py` line 226: `all_context[:5]`). -/
def chatSentContext (msg : String) (store : Option (List UploadedRec))
    (searchOut : List CtxDoc) : List CtxDoc :=
  (chatSelectedContext msg store searchOut).take 5

/-! Section: Prompt assembly (`llm_service.py`, `_build_prompt`, lines 96-187) -/

/-- The model of `uploaded_docs` (`llm_service.py` line 98). -/
def uploadedOf (ctx : List CtxDoc) : List CtxDoc :=
  ctx.filter fun d => d.source_type == "uploaded"

/-- The model of `company_docs` (`llm_service.py` line 99). -/
def companyOf (ctx : List CtxDoc) : List CtxDoc :=
  ctx.filter fun d => d.source_type == "company"

/-- One value of the `parent_groups` dict (`llm_service.py` lines 137-145):
the group key, the filename of the first chunk seen, and the chunks. -/
structure ParentGroup where
  pid : String
  filename : String
  chunks : List CtxDoc
deriving DecidableEq

/-- One iteration of the grouping loop: Python dict insertion-order
semantics (a new key is appended, an existing key keeps its slot and its
`filename`, chunks accumulate). -/
def addToGroups (gs : List ParentGroup) (d : CtxDoc) : List ParentGroup :=
  let pid := d.parent_id.getD ("unknown")
  if gs.any fun g => g.pid == pid then
    gs.map fun g => if g.pid == pid then { g with chunks := g.chunks ++ [d] } else g
  else
    gs ++ [⟨pid, d.filename, [d]⟩]

/-- The model of `parent_groups` built over the company documents
(`llm_service.py` lines 137-145). -/
def groupCompany (docs : List CtxDoc) : List ParentGroup :=
  docs.foldl addToGroups []

/-- The `doc_mapping` entry written for an uploaded document
(`llm_service.py` lines 112-124). -/
def uploadEntry (d : CtxDoc) : MapEntry :=
  { filename := d.filename, type := "uploaded", download_url := d.download_url,
    chunks := match d.chunk_number with | some n => [n] | none => [] }

/-- The `doc_mapping` entry written for a company parent group
(`llm_service.py` lines 155-167): `download_url` comes from the first
chunk, `chunks` collects the chunk numbers that are present. -/
def companyEntry (g : ParentGroup) : MapEntry :=
  { filename := g.filename, type := "company",
    download_url := (g.chunks.head?.bind fun c => c.download_url),
    chunks := g.chunks.filterMap fun c => c.chunk_number }

/-- The `doc_number` counter: consecutive integers starting at `n` paired
with the entries in render order. -/
def numberFrom : Nat → List MapEntry → List (Nat × MapEntry)
  | _, [] => []
  | n, e :: es => (n, e) :: numberFrom (n + 1) es

/-- The model of `doc_mapping` as returned by `_build_prompt`: uploaded documents first
(one entry each), then one entry per company parent group, numbered from 1
in render order. -/
def buildMapping (ctx : List CtxDoc) : List (Nat × MapEntry) :=
  numberFrom 1
    ((uploadedOf ctx).map uploadEntry ++ (groupCompany (companyOf ctx)).map companyEntry)

/-- The text block rendered for one document/chunk, with the truncation
marker abstracted to the length it reports. -/
structure RenderedChunk where
  shown : List Char
  truncMarker : Option Nat
deriving DecidableEq

/-- Rendering of an uploaded document (`llm_service.py` line 126): full
content, never a truncation marker. -/
def renderUploaded (d : CtxDoc) : RenderedChunk :=
  { shown := d.content, truncMarker := none }

/-- Rendering of one company chunk (`llm_service.py` lines 170-174):
`chunk['content'][:10000]`, and the
`(content truncated, original length: L chars)` marker exactly when the
original length exceeds 10000. -/
def renderCompanyChunk (c : CtxDoc) : RenderedChunk :=
  { shown := c.content.take 10000,
    truncMarker := if 10000 < c.content.length then some c.content.length else none }

/-- All document bodies rendered into the prompt, in render order:
the uploaded block first, then every chunk of every company group. -/
def buildRender (ctx : List CtxDoc) : List RenderedChunk :=
  (uploadedOf ctx).map renderUploaded
    ++ (groupCompany (companyOf ctx)).flatMap fun g => g.chunks.map renderCompanyChunk

/-! Section: Citation extraction (`llm_service.py`, `_extract_citations`, lines 189-231) -/

/-- Character-by-character scan for the regex `\[(\d+)\]`.  The state is
`none` outside a candidate match and `some ds` after an opening bracket
followed by the digits `ds` collected so far.  A fresh `[` always restarts
a candidate (a failed candidate can only be re-entered at a later `[`,
since a match must begin with `[` and the skipped characters are digits),
and a closing `]` after at least one digit emits the digit string, exactly
as the left-to-right non-overlapping regex scan does. -/
def findallAux : List Char → Option (List Char) → List (List Char)
  | [], _ => []
  | c :: cs, none =>
    if c = '[' then findallAux cs (some []) else findallAux cs none
  | c :: cs, some ds =>
    if c = '[' then findallAux cs (some [])
    else if c.isDigit then findallAux cs (some (ds ++ [c]))
    else if c = ']' then
      if ds.isEmpty then findallAux cs none else ds :: findallAux cs none
    else findallAux cs none

/-- All matches of `re.findall(r'\[(\d+)\]', response_text)` in scan
order: the digit strings of the bracketed integer markers. -/
def findall (l : List Char) : List (List Char) := findallAux l none

/-- First-occurrence deduplication with an accumulator of already-seen
strings: the model of `set(...)` over the match strings (Python set
iteration order is unspecified; the subsequent sort by integer value makes
the order of distinct values canonical). -/
def dedupFirstAux : List (List Char) → List (List Char) → List (List Char)
  | [], _ => []
  | s :: ss, seen =>
    if s ∈ seen then dedupFirstAux ss seen else s :: dedupFirstAux ss (s :: seen)

/-- The distinct match strings, first occurrence first. -/
def dedupFirst (l : List (List Char)) : List (List Char) := dedupFirstAux l []

/-- Numeric value of a digit string: `int(doc_num_str)`. -/
def digitsVal (l : List Char) : Nat :=
  l.foldl (fun n c => 10 * n + (c.toNat - 48)) 0

/-- Stable insertion by ascending `digitsVal`. -/
def insertByVal (s : List Char) : List (List Char) → List (List Char)
  | [] => [s]
  | t :: ts => if digitsVal s ≤ digitsVal t then s :: t :: ts else t :: insertByVal s ts

/-- The model of `sorted(cited_doc_numbers, key=int)`. -/
def sortByVal : List (List Char) → List (List Char)
  | [] => []
  | s :: ss => insertByVal s (sortByVal ss)

/-- Lookup in the `doc_mapping` dict (`doc_num in doc_mapping`). -/
def lookupMap (n : Nat) : List (Nat × MapEntry) → Option MapEntry
  | [] => none
  | (k, e) :: rest => if k = n then some e else lookupMap n rest

/-- Ascending insertion sort on chunk numbers (`sorted(chunks)`). -/
def insertNat (n : Nat) : List Nat → List Nat
  | [] => [n]
  | m :: ms => if n ≤ m then n :: m :: ms else m :: insertNat n ms

/-- The model of `sorted` on a list of chunk numbers. -/
def sortNat : List Nat → List Nat
  | [] => []
  | n :: ns => insertNat n (sortNat ns)

/-- The model of `", ".join(str(c) for c in chunks_sorted)`. -/
def joinCommaNat : List Nat → String
  | [] => ""
  | [n] => toString n
  | n :: ns => toString n ++ ", " ++ joinCommaNat ns

/-- The `chunk_info` string built in `_extract_citations`
(`llm_service.py` lines 204-216). -/
def chunkInfo (chunks : List Nat) : String :=
  if chunks.isEmpty then ("")
  else
    let cs := sortNat chunks
    if cs.length = 1 then ("Chunk ") ++ toString (cs.headD 0)
    else if cs.length ≤ 5 then ("Chunks ") ++ joinCommaNat cs
    else ("Chunks ") ++ toString (cs.headD 0) ++ "-" ++ toString (cs.getLastD 0)
          ++ " (" ++ toString cs.length ++ " total)"

/-- The icon prefix chosen per source type. -/
def citeIcon (t : String) : String := if t == "uploaded" then ("📤") else ("📁")

/-- The display string of a source entry
(`llm_service.py` lines 218-222). -/
def sourceText (e : MapEntry) : String :=
  let ci := chunkInfo e.chunks
  if ci == "" then citeIcon e.type ++ " " ++ e.filename
  else citeIcon e.type ++ " " ++ e.filename ++ " → " ++ ci

/-- A `sources` entry carrying the sequential number `n`. -/
def mkSource (e : MapEntry) (n : Nat) : SourceEntry :=
  { filename := sourceText e, type := e.type,
    download_url := e.download_url, citation_number := n }

/-- The `for new_num, doc_num_str in enumerate(sorted(...), start=1)` loop:
`n` is the enumeration counter, which advances for every distinct cited
number, whether or not it is present in the mapping; only mapped numbers
produce a source entry. -/
def extractAux : Nat → List (List Char) → List (Nat × MapEntry) → List SourceEntry
  | _, [], _ => []
  | n, s :: ss, m =>
    match lookupMap (digitsVal s) m with
    | some e => mkSource e n :: extractAux (n + 1) ss m
    | none => extractAux (n + 1) ss m

/-- The model of `LLMService._extract_citations`. -/
def extract_citations (txt : List Char) (m : List (Nat × MapEntry)) : List SourceEntry :=
  extractAux 1 (sortByVal (dedupFirst (findall txt))) m

/-! Section: Fallback source synthesis (`llm_service.py` lines 293-312) -/

/-- The fallback loop state: documents still to visit, the `seen_files`
set, and the `doc_num` counter. -/
def fallbackAux : List CtxDoc → List String → Nat → List SourceEntry
  | [], _, _ => []
  | d :: ds, seen, n =>
    if d.filename ∈ seen then fallbackAux ds seen n
    else
      { filename := citeIcon d.source_type ++ " " ++ d.filename,
        type := d.source_type, download_url := d.download_url,
        citation_number := n } :: fallbackAux ds (seen ++ [d.filename]) (n + 1)

/-- The source list synthesized from all provided context documents,
deduplicated by filename and numbered from 1. -/
def fallbackSources (ctx : List CtxDoc) : List SourceEntry :=
  fallbackAux ctx [] 1

/-- The final `sources` computation of `generate_response`: the extracted
citations, replaced by the fallback list when no source was extracted and
context was provided (`if not sources and context:`). -/
def computeSources (txt : List Char) (m : List (Nat × MapEntry))
    (ctx : List CtxDoc) : List SourceEntry :=
  let s := extract_citations txt m
  if s.isEmpty && !ctx.isEmpty then fallbackSources ctx else s

/-! Section: Search-result post-processing
(`azure_search_service.py`, `search` lines 40-136 and
`_fallback_keyword_search` lines 138-177).  The Azure SDK call itself is
the external collaborator; what is embedded is the loop that turns each
raw result dict into a `{content, filename, score, source_type}` dict.
Base64 and URL decoding are external library functions and appear as
parameters `b64` and `unq`. -/

/-- The `content` field of a raw result: Python distinguishes a plain
string from a list of strings (joined with spaces). -/
inductive ContentVal where
  | str (s : List Char)
  | strs (l : List (List Char))
deriving DecidableEq

/-- A raw search-result dict with the fields the loop reads.
`search_score` is `@search.score` (default 0), `reranker_score` is
`@search.reranker_score` when present. -/
structure RawResult where
  content : ContentVal
  metadata_storage_name : Option String := none
  title : Option String := none
  filepath : Option String := none
  chunk_id : Option String := none
  search_score : Rat := 0
  reranker_score : Option Rat := none
deriving DecidableEq

/-- The model of `" ".join(str(item) for item in content)`. -/
def joinSpace : List (List Char) → List Char
  | [] => []
  | [s] => s
  | s :: rest => s ++ ' ' :: joinSpace rest

/-- The string the loop works with after the `isinstance(content, list)`
normalisation. -/
def contentStr : ContentVal → List Char
  | .str s => s
  | .strs l => joinSpace l

/-- Python truthiness of an optional string field (`None` and the empty
string are falsy). -/
def truthyStr : Option String → Bool
  | none => false
  | some s => !(s == "")

/-- The model of `filepath.split("/")[-1] if "/" in filepath else filepath`. -/
def basename (fp : String) : String :=
  if containsSub ("/".toList) fp.toList then ((fp.splitOn ("/")).getLastD fp) else fp

/-- The file extensions probed when recovering a filename from a decoded
`chunk_id` URL. -/
def extsList : List String := [".pdf", ".png", ".jpg", ".jpeg", ".docx", ".txt"]

/-- Filename recovery from a base64-encoded `chunk_id`
(`azure_search_service.py` lines 91-106): decode, split on `/`, take the
last path component whose lower-cased form contains a known extension,
URL-unquote it.  Decoding failures in the Python `try` block leave the
filename unset, which the total parameters cannot produce; this only makes
the model more permissive about which inputs yield a filename. -/
def filenameFromChunkId (b64 unq : String → String) (cid : String) : Option String :=
  let decoded := b64 cid
  if containsSub ("/".toList) decoded.toList then
    ((decoded.splitOn ("/")).reverse.find? fun part =>
        extsList.any fun ext => containsSub ext.toList (part.toList.map Char.toLower)).map unq
  else none

/-- The filename produced by the `if`/`elif` chain of the hybrid-search
loop before the final `if not filename` default. -/
def rawFilename (b64 unq : String → String) (r : RawResult) : Option String :=
  if truthyStr r.metadata_storage_name then r.metadata_storage_name
  else if truthyStr r.title then r.title
  else if truthyStr r.filepath then some (basename (r.filepath.getD ("")))
  else if truthyStr r.chunk_id then filenameFromChunkId b64 unq (r.chunk_id.getD (""))
  else none

/-- The model of `if not filename: filename = "Unknown Document"`. -/
def resolveFilename (b64 unq : String → String) (r : RawResult) : String :=
  match rawFilename b64 unq r with
  | some f => if f == "" then ("Unknown Document") else f
  | none => "Unknown Document"

/-- The model of `score = @search.score (default 0); if reranker_score: score =
reranker_score` — the Python truthiness test keeps the hybrid score when
the reranker score is absent or zero. -/
def resultScore (r : RawResult) : Rat :=
  match r.reranker_score with
  | some rr => if rr == 0 then r.search_score else rr
  | none => r.search_score

/-- One iteration of the hybrid-search result loop: skipped when the
normalised content is empty, otherwise a company doc whose content is
`str(content)[:5000]`. -/
def processResult (b64 unq : String → String) (r : RawResult) : Option CtxDoc :=
  let content := contentStr r.content
  if content.isEmpty then none
  else some
    { content := content.take 5000, filename := resolveFilename b64 unq r,
      score := resultScore r, source_type := "company" }

/-- The model of `search_results` of `AzureSearchService.search`. -/
def searchResults (b64 unq : String → String) (rs : List RawResult) : List CtxDoc :=
  rs.filterMap (processResult b64 unq)

/-- Filename resolution of the keyword fallback path:
`metadata_storage_name or title or "Unknown Document"`. -/
def resolveFilenameFallback (r : RawResult) : String :=
  if truthyStr r.metadata_storage_name then r.metadata_storage_name.getD ("")
  else if truthyStr r.title then r.title.getD ("")
  else ("Unknown Document")

/-- One iteration of the `_fallback_keyword_search` result loop. -/
def fallbackResult (r : RawResult) : Option CtxDoc :=
  let content := contentStr r.content
  if content.isEmpty then none
  else some
    { content := content.take 5000, filename := resolveFilenameFallback r,
      score := r.search_score, source_type := "company" }

/-- The model of `search_results` of `AzureSearchService._fallback_keyword_search`. -/
def fallbackSearchResults (rs : List RawResult) : List CtxDoc :=
  rs.filterMap fallbackResult

/-! Section: Response generation and conversation history
(`llm_service.py`, `generate_response`, lines 233-328).  The Azure OpenAI
call is the external generation collaborator; it is modelled as an
`Option (List Char)`: `some txt` is a successful completion, `none` is a
raised exception. -/

/-- One stored `{query, response}` turn. -/
structure TurnRec where
  query : List Char
  response : List Char
deriving DecidableEq

/-- The `self.conversation_history` dict, as an insertion-ordered
association list. -/
abbrev HistMap := List (String × List TurnRec)

/-- Reading a session's history; an absent key behaves as an empty
history. -/
def histLookup (h : HistMap) (sid : String) : List TurnRec :=
  match h.find? fun p => p.1 == sid with
  | some p => p.2
  | none => []

/-- The model of `session_id in self.conversation_history`. -/
def histHasKey (h : HistMap) (sid : String) : Bool :=
  (h.find? fun p => p.1 == sid).isSome

/-- The model of `if session_id not in self.conversation_history:
self.conversation_history[session_id] = []` (lines 244-245). -/
def histInsertEmpty (h : HistMap) (sid : String) : HistMap :=
  if histHasKey h sid then h else h ++ [(sid, [])]

/-- The model of `self.conversation_history[session_id].append({...})` (lines 288-291);
the key always exists when this runs. -/
def histAppend (h : HistMap) (sid : String) (t : TurnRec) : HistMap :=
  h.map fun p => if p.1 == sid then (p.1, p.2 ++ [t]) else p

/-- The fixed apology returned from the `except` branch (line 325). -/
def apologyAnswer : String :=
  "I apologize, but I encountered an error processing your request."

/-- The value returned to the `/api/chat` handler. -/
structure GenResponse where
  answer : List Char
  sources : List SourceEntry
  session_id : String
deriving DecidableEq

/-- The model of `LLMService.generate_response` as a pure state transition on the
conversation-history map.  `genOut` is the generation collaborator
(`none` = the call raised), `freshId` the uuid drawn when no session id
was supplied.  On success the answer is returned verbatim with the
extracted (or fallback) sources and the turn is appended; on failure the
apology is returned with no sources and no turn is appended. -/
def generate_response (genOut : Option (List Char)) (query : List Char)
    (context : List CtxDoc) (sidOpt : Option String) (freshId : String)
    (hist : HistMap) : GenResponse × HistMap :=
  let sid := sidOpt.getD freshId
  let hist1 := histInsertEmpty hist sid
  let mapping := buildMapping context
  match genOut with
  | none => ({ answer := apologyAnswer.toList, sources := [], session_id := sid }, hist1)
  | some txt =>
    let hist2 := histAppend hist1 sid { query := query, response := txt }
    ({ answer := txt, sources := computeSources txt mapping context,
       session_id := sid }, hist2)

/-! Section: Spec-side definition for the comparison-selection claim -/

/-- Stable descending insertion: the inserted element goes in front of the
first element whose score it reaches; on ties the earlier element stays in
front. -/
def insertDescSpec (d : CtxDoc) : List CtxDoc → List CtxDoc
  | [] => [d]
  | y :: ys => if y.score ≤ d.score then d :: y :: ys else y :: insertDescSpec d ys

/-- The selection order described by the spec for "top K": a stable sort
descending by `relevance_score`, ties preserving original retrieval order.
This is the spec-side definition, to be compared with what the source
actually computes. -/
def stableSortDescSpec : List CtxDoc → List CtxDoc
  | [] => []
  | x :: xs => insertDescSpec x (stableSortDescSpec xs)

/-! Section: Concrete instances used by counterexamples and witnesses -/

/-- A one-page uploaded lease document. -/
def exLease : UploadedRec :=
  { filename := "lease.pdf", content := ("tenant lease terms").toList, page_count := 1 }

/-- Six uploaded documents in one session. -/
def exUploads6 : List UploadedRec :=
  [{ filename := "a1.pdf", content := ("t1").toList, page_count := 1 },
   { filename := "a2.pdf", content := ("t2").toList, page_count := 1 },
   { filename := "a3.pdf", content := ("t3").toList, page_count := 1 },
   { filename := "a4.pdf", content := ("t4").toList, page_count := 1 },
   { filename := "a5.pdf", content := ("t5").toList, page_count := 1 },
   { filename := "a6.pdf", content := ("t6").toList, page_count := 1 }]

/-- Indexed results scored 4.0, 3.0 and 1.0 (the end-to-end scenario). -/
def exR40 : CtxDoc :=
  { content := ("policy text a").toList, filename := "pa.pdf",
    source_type := "company", score := 4 }

def exR30 : CtxDoc :=
  { content := ("policy text b").toList, filename := "pb.pdf",
    source_type := "company", score := 3 }

def exR10 : CtxDoc :=
  { content := ("policy text c").toList, filename := "pc.pdf",
    source_type := "company", score := 1 }

/-- Indexed results scored 3, 4, 5 and 6, for order-sensitivity tests. -/
def exS30 : CtxDoc :=
  { content := ("x3").toList, filename := "f3.pdf", source_type := "company", score := 3 }

def exS40 : CtxDoc :=
  { content := ("x4").toList, filename := "f4.pdf", source_type := "company", score := 4 }

def exS50 : CtxDoc :=
  { content := ("x5").toList, filename := "f5.pdf", source_type := "company", score := 5 }

def exS60 : CtxDoc :=
  { content := ("x6").toList, filename := "f6.pdf", source_type := "company", score := 6 }

/-- The end-to-end comparison query of the spec. -/
def c5query : String := "does this comply with our policy"

/-- A citation map holding exactly document number 1. -/
def exMapOne : List (Nat × MapEntry) :=
  [(1, { filename := "doc.pdf", type := "uploaded", download_url := none, chunks := [] })]

/-- An uploaded document longer than the 10000-character ceiling. -/
def exBigUpload : CtxDoc :=
  { content := List.replicate 10001 'a', filename := "big.pdf",
    source_type := "uploaded", score := 10 }

/-- Context documents with a duplicated filename, for the fallback count. -/
def exCtxDup : List CtxDoc :=
  [{ content := ("c1").toList, filename := "dup.pdf", source_type := "uploaded", score := 10 },
   { content := ("c2").toList, filename := "dup.pdf", source_type := "uploaded", score := 10 },
   { content := ("c3").toList, filename := "other.pdf", source_type := "company", score := 4 }]

/-- A raw search result whose content is a list of strings. -/
def exRaw : RawResult :=
  { content := .strs [("hello").toList, ("world").toList],
    metadata_storage_name := some ("h.pdf"), search_score := 2 }

/-- The context document the hybrid-search loop produces from `exRaw`. -/
def exProcessed : CtxDoc :=
  { content := ("hello world").toList, filename := "h.pdf",
    source_type := "company", score := 2 }

/-! Section: Helper lemmas -/

theorem numberFrom_length (n : Nat) (l : List MapEntry) :
    (numberFrom n l).length = l.length := by
  induction l generalizing n with
  | nil => rfl
  | cons e es ih => simp [numberFrom, ih]

theorem numberFrom_map_fst (n : Nat) (l : List MapEntry) :
    (numberFrom n l).map Prod.fst = List.range' n l.length := by
  induction l generalizing n with
  | nil => rfl
  | cons e es ih => simp [numberFrom, List.range'_succ, ih]

theorem numberFrom_map_typeFilename (n : Nat) (l : List MapEntry) :
    (numberFrom n l).map (fun p => (p.2.type, p.2.filename))
      = l.map (fun e => (e.type, e.filename)) := by
  induction l generalizing n with
  | nil => rfl
  | cons e es ih => simp [numberFrom, ih]

theorem numberFrom_take (n k : Nat) (l : List MapEntry) :
    (numberFrom n l).take k = numberFrom n (l.take k) := by
  induction l generalizing n k with
  | nil => simp [numberFrom]
  | cons e es ih =>
    cases k with
    | zero => simp [numberFrom]
    | succ k => simp [numberFrom, ih]

theorem numberFrom_drop (n k : Nat) (l : List MapEntry) :
    (numberFrom n l).drop k = numberFrom (n + k) (l.drop k) := by
  induction l generalizing n k with
  | nil => simp [numberFrom]
  | cons e es ih =>
    cases k with
    | zero => simp [numberFrom]
    | succ k =>
      simp only [numberFrom, List.drop_succ_cons, ih]
      congr 1
      omega

/-! Section: C7: citation indices in the prompt assembler -/

/-- C7: for every context-document list, the prompt assembler's citation
map carries contiguous indices starting at 1, assigned in render order
with the uploaded block before the indexed block, and each index records
the document filename and source type. -/
theorem citation_indices_contiguous (ctx : List CtxDoc) :
    (buildMapping ctx).map Prod.fst = List.range' 1 (buildMapping ctx).length
    ∧ ((buildMapping ctx).take (uploadedOf ctx).length).map
          (fun p => (p.2.type, p.2.filename))
        = (uploadedOf ctx).map (fun d => ("uploaded", d.filename))
    ∧ ((buildMapping ctx).drop (uploadedOf ctx).length).map
          (fun p => (p.2.type, p.2.filename))
        = (groupCompany (companyOf ctx)).map (fun g => ("company", g.filename)) := by
  refine ⟨?_, ?_, ?_⟩
  · rw [buildMapping, numberFrom_map_fst, numberFrom_length]
  · rw [buildMapping, numberFrom_take]
    have hlen : (uploadedOf ctx).length = ((uploadedOf ctx).map uploadEntry).length := by
      simp
    rw [hlen, List.take_left, numberFrom_map_typeFilename, List.map_map]
    rfl
  · rw [buildMapping, numberFrom_drop]
    have hlen : (uploadedOf ctx).length = ((uploadedOf ctx).map uploadEntry).length := by
      simp
    rw [hlen, List.drop_left, numberFrom_map_typeFilename, List.map_map]
    rfl

/-! Section: C6: the truncation marker -/

/-- C6 counterexample: an uploaded document longer than 10000 characters is
rendered without any truncation marker, so the marker is not present "if
and only if original content length exceeds 10000" across all rendered
documents. -/
theorem long_upload_rendered_without_marker :
    10000 < exBigUpload.content.length
    ∧ buildRender [exBigUpload]
        = [{ shown := exBigUpload.content, truncMarker := none }] := by
  constructor
  · show 10000 < (List.replicate 10001 'a').length
    rw [List.length_replicate]
    omega
  · rfl

/-- C6 (amended): for indexed (company) chunks the truncation marker is
present if and only if the original content exceeds 10000 characters, and
the rendered body is the 10000-character prefix; uploaded documents are
always rendered in full with no marker. -/
theorem company_trunc_marker_iff (c : CtxDoc) :
    ((renderCompanyChunk c).truncMarker.isSome ↔ 10000 < c.content.length)
    ∧ (renderCompanyChunk c).shown = c.content.take 10000
    ∧ (renderUploaded c).shown = c.content
    ∧ (renderUploaded c).truncMarker = none := by
  refine ⟨?_, rfl, rfl, rfl⟩
  by_cases h : 10000 < c.content.length <;> simp [renderCompanyChunk, h]

/-! Section: C2: casual queries -/

theorem selectContext_nil_indexed (q : List Char) (hd : Bool) (sctx : List CtxDoc) :
    selectContext q hd sctx []
      = if (is_upload_only q hd && !sctx.isEmpty) = false
            ∧ (is_policy_only q hd && !is_comparison q) = true
        then [] else sctx := by
  unfold selectContext
  by_cases h1 : (is_upload_only q hd && !sctx.isEmpty) = true
  · rw [if_pos h1, if_neg (by simp [h1])]
  · have hb1 : (is_upload_only q hd && !sctx.isEmpty) = false := by
      cases hb : (is_upload_only q hd && !sctx.isEmpty)
      · rfl
      · exact absurd hb h1
    by_cases h2 : (is_policy_only q hd && !is_comparison q) = true
    · rw [if_neg h1, if_pos h2, if_pos ⟨hb1, h2⟩]
    · rw [if_neg h1, if_neg h2]
      simp [h2]

/-- C2 counterexample: the query "hi" is classified casual, yet with an
uploaded document in the session the selected context is that uploaded
document, not empty. -/
theorem casual_with_uploads_selects_uploads :
    is_casual (queryLower ("hi")) = true
    ∧ chatSelectedContext ("hi") (some [exLease]) [] = [mkUploadCtx exLease] := by
  constructor
  · decide
  · decide

/-- C2 (amended): for every query classified casual, no search call is
issued, so the selection runs on an empty indexed pool and the selected
context never contains indexed results.  Precisely: the selection chain
has no casual case, so the context is empty exactly when the query maps
to the pure policy-only branch (a policy pattern, no comparison pattern,
and no effective upload-only match), which then selects the empty indexed
list; for every other casual query the context is the session's uploaded
documents.  In particular it is empty whenever the session has no
uploads. -/
theorem casual_skips_search (msg : String) (store : Option (List UploadedRec))
    (searchOut : List CtxDoc)
    (h : is_casual (queryLower msg) = true) :
    searchInvoked (queryLower msg) (hasUploadedDocs store) (sessionContext store) = false
    ∧ chatSelectedContext msg store searchOut
        = (if (is_upload_only (queryLower msg) (hasUploadedDocs store)
                  && !(sessionContext store).isEmpty) = false
              ∧ (is_policy_only (queryLower msg) (hasUploadedDocs store)
                  && !is_comparison (queryLower msg)) = true
           then [] else sessionContext store)
    ∧ (store = none → chatSelectedContext msg store searchOut = []) := by
  have hsi : searchInvoked (queryLower msg) (hasUploadedDocs store)
      (sessionContext store) = false := by
    rw [searchInvoked, h]
    rfl
  have hind : indexedResults (queryLower msg) (hasUploadedDocs store)
      (sessionContext store) searchOut = [] := by
    rw [indexedResults, hsi]
    rfl
  have hsel : chatSelectedContext msg store searchOut
      = selectContext (queryLower msg) (hasUploadedDocs store) (sessionContext store) [] := by
    rw [chatSelectedContext, hind]
  refine ⟨hsi, ?_, ?_⟩
  · rw [hsel, selectContext_nil_indexed]
  · intro hstore
    subst hstore
    rw [hsel, selectContext_nil_indexed]
    split_ifs
    · rfl
    · rfl

/-- C2 witness: the theorem applied to the casual query "hi" with no
session. -/
theorem casual_skips_search_witness :
    is_casual (queryLower ("hi")) = true
    ∧ (searchInvoked (queryLower ("hi")) (hasUploadedDocs (none : Option (List UploadedRec)))
          (sessionContext none) = false
       ∧ chatSelectedContext ("hi") none []
           = (if (is_upload_only (queryLower ("hi"))
                      (hasUploadedDocs (none : Option (List UploadedRec)))
                    && !(sessionContext (none : Option (List UploadedRec))).isEmpty) = false
                 ∧ (is_policy_only (queryLower ("hi"))
                      (hasUploadedDocs (none : Option (List UploadedRec)))
                    && !is_comparison (queryLower ("hi"))) = true
              then [] else sessionContext none)
       ∧ ((none : Option (List UploadedRec)) = none → chatSelectedContext ("hi") none [] = [])) :=
  ⟨by decide, casual_skips_search ("hi") none [] (by decide)⟩

/-! Section: C3: uploaded documents and the context cap -/

theorem selectContext_uploads_prefix (q : List Char) (hd : Bool)
    (sctx ind : List CtxDoc)
    (hp : (is_policy_only q hd && !is_comparison q) = false) :
    ∃ rest, selectContext q hd sctx ind = sctx ++ rest := by
  have hp2 : ¬((is_policy_only q hd && !is_comparison q) = true) := by simp [hp]
  by_cases h1 : (is_upload_only q hd && !sctx.isEmpty) = true
  · exact ⟨[], by unfold selectContext; rw [if_pos h1, List.append_nil]⟩
  · by_cases h3 : (is_comparison q && !sctx.isEmpty && !ind.isEmpty) = true
    · exact ⟨_, by unfold selectContext; rw [if_neg h1, if_neg hp2, if_pos h3]⟩
    · by_cases h4 : (!sctx.isEmpty && !ind.isEmpty) = true
      · by_cases hf : (!(ind.filter fun d => (3 : Rat) < d.score).isEmpty) = true
        · refine ⟨(ind.filter fun d => (3 : Rat) < d.score).take 2, ?_⟩
          unfold selectContext
          rw [if_neg h1, if_neg hp2, if_neg h3, if_pos h4]
          dsimp only
          rw [if_pos hf]
        · refine ⟨[], ?_⟩
          unfold selectContext
          rw [if_neg h1, if_neg hp2, if_neg h3, if_pos h4, List.append_nil]
          dsimp only
          rw [if_neg hf]
      · exact ⟨ind, by unfold selectContext; rw [if_neg h1, if_neg hp2, if_neg h3, if_neg h4]⟩

/-- C3 counterexample: with six uploaded documents and an upload-only
query, the context sent to generation is capped at five documents and the
sixth uploaded document is dropped. -/
theorem sixth_upload_dropped_by_cap :
    mkUploadCtx { filename := "a6.pdf", content := ("t6").toList, page_count := 1 }
        ∈ sessionContext (some exUploads6)
    ∧ (chatSentContext ("summarize the upload") (some exUploads6) []).length = 5
    ∧ mkUploadCtx { filename := "a6.pdf", content := ("t6").toList, page_count := 1 }
        ∉ chatSentContext ("summarize the upload") (some exUploads6) [] := by
  refine ⟨by decide, by decide, by decide⟩

/-- C3 (amended): for every intent other than casual and pure policy-only,
the uploaded documents form a prefix of the selected context (they are
never dropped in favour of indexed results); the overall cap of 5 keeps
the first five, so every uploaded document reaches the generation call
whenever the session holds at most five uploads. -/
theorem uploads_prefix_of_sent_context (msg : String)
    (store : Option (List UploadedRec)) (searchOut : List CtxDoc)
    (_hc : is_casual (queryLower msg) = false)
    (hp : (is_policy_only (queryLower msg) (hasUploadedDocs store)
            && !is_comparison (queryLower msg)) = false)
    (hlen : (sessionContext store).length ≤ 5) :
    ∀ d ∈ sessionContext store, d ∈ chatSentContext msg store searchOut := by
  intro d hd
  obtain ⟨rest, hrest⟩ := selectContext_uploads_prefix (queryLower msg)
    (hasUploadedDocs store) (sessionContext store)
    (indexedResults (queryLower msg) (hasUploadedDocs store) (sessionContext store) searchOut)
    hp
  have hsel : chatSelectedContext msg store searchOut = sessionContext store ++ rest := hrest
  rw [chatSentContext, hsel, List.take_append_eq_append_take,
    List.take_of_length_le hlen]
  exact List.mem_append_left _ hd

/-- C3 witness: the theorem applied to a comparison query with a single
uploaded document. -/
theorem uploads_prefix_witness :
    (is_casual (queryLower ("compare")) = false
     ∧ (is_policy_only (queryLower ("compare")) (hasUploadedDocs (some [exLease]))
          && !is_comparison (queryLower ("compare"))) = false
     ∧ (sessionContext (some [exLease])).length ≤ 5)
    ∧ (∀ d ∈ sessionContext (some [exLease]),
        d ∈ chatSentContext ("compare") (some [exLease]) []) :=
  ⟨⟨by decide, by decide, by decide⟩,
   uploads_prefix_of_sent_context ("compare") (some [exLease]) []
     (by decide) (by decide) (by decide)⟩

/-! Section: C4: comparison-mode selection and sortedness -/

theorem stableSortDescSpec_of_sorted (l : List CtxDoc)
    (h : l.Pairwise fun a b => b.score ≤ a.score) :
    stableSortDescSpec l = l := by
  induction l with
  | nil => rfl
  | cons x xs ih =>
    have hx : ∀ y ∈ xs, y.score ≤ x.score := (List.pairwise_cons.mp h).1
    rw [stableSortDescSpec, ih (List.pairwise_cons.mp h).2]
    cases xs with
    | nil => rfl
    | cons y ys =>
      have hy : y.score ≤ x.score := hx y (by simp)
      simp [insertDescSpec, hy]

/-- C4 counterexample: a comparison query whose indexed results arrive in
ascending score order.  The code keeps the first three results above the
2.5 floor, so the highest-scored result (6.0) is not selected at all,
while any "top 3 by relevance_score" selection would have to contain it. -/
theorem comparison_ignores_sort_order :
    chatSelectedContext ("compare") (some [exLease]) [exS30, exS40, exS50, exS60]
        = [mkUploadCtx exLease, exS30, exS40, exS50]
    ∧ exS60 ∉ chatSelectedContext ("compare") (some [exLease]) [exS30, exS40, exS50, exS60]
    ∧ exS50.score < exS60.score ∧ exS40.score < exS60.score
    ∧ exS30.score < exS60.score ∧ mkRat 5 2 < exS60.score := by
  refine ⟨by decide, by decide, by decide, by decide, by decide, by decide⟩

/-- C4 (amended): in comparison mode with both pools non-empty the code
selects the first three indexed results above the 2.5 floor in their
original retrieval order (no sorting is performed); this coincides with
the spec's stable descending sort exactly when the indexed list already
arrives sorted descending by relevance score. -/
theorem comparison_first_three_above_threshold (q : List Char) (hd : Bool)
    (sctx ind : List CtxDoc)
    (h1 : (is_upload_only q hd && !sctx.isEmpty) = false)
    (h2 : is_comparison q = true)
    (h3 : sctx ≠ []) (h4 : ind ≠ []) :
    selectContext q hd sctx ind
        = sctx ++ ((ind.filter fun d => mkRat 5 2 < d.score).take 3)
    ∧ ((ind.Pairwise fun a b => b.score ≤ a.score) →
        (ind.filter fun d => mkRat 5 2 < d.score).take 3
          = (stableSortDescSpec (ind.filter fun d => mkRat 5 2 < d.score)).take 3) := by
  have h3e : sctx.isEmpty = false := by
    cases sctx
    · exact absurd rfl h3
    · rfl
  have h4e : ind.isEmpty = false := by
    cases ind
    · exact absurd rfl h4
    · rfl
  constructor
  · have hp2 : ¬((is_policy_only q hd && !is_comparison q) = true) := by
      simp [is_policy_only, h2]
    have hc3 : (is_comparison q && !sctx.isEmpty && !ind.isEmpty) = true := by
      simp [h2, h3e, h4e]
    unfold selectContext
    rw [if_neg (by simp [h1]), if_neg hp2, if_pos hc3]
  · intro hs
    rw [stableSortDescSpec_of_sorted _ (List.Pairwise.filter _ hs)]

/-- C4 witness: the theorem applied to a descending-sorted result list. -/
theorem comparison_first_three_witness :
    ((is_upload_only (("compare").toList) true && !([mkUploadCtx exLease] : List CtxDoc).isEmpty) = false
     ∧ is_comparison (("compare").toList) = true
     ∧ ([mkUploadCtx exLease] : List CtxDoc) ≠ [] ∧ ([exS60, exS50, exS40] : List CtxDoc) ≠ [])
    ∧ (selectContext (("compare").toList) true [mkUploadCtx exLease] [exS60, exS50, exS40]
        = [mkUploadCtx exLease]
            ++ (([exS60, exS50, exS40].filter fun d => mkRat 5 2 < d.score).take 3)
       ∧ (([exS60, exS50, exS40].Pairwise fun a b => b.score ≤ a.score) →
           ([exS60, exS50, exS40].filter fun d => mkRat 5 2 < d.score).take 3
             = (stableSortDescSpec ([exS60, exS50, exS40].filter fun d => mkRat 5 2 < d.score)).take 3)) :=
  ⟨⟨by decide, by decide, by decide, by decide⟩,
   comparison_first_three_above_threshold (("compare").toList) true
     [mkUploadCtx exLease] [exS60, exS50, exS40]
     (by decide) (by decide) (by decide) (by decide)⟩

/-! Section: C5: the end-to-end compliance scenario -/

/-- C5 counterexample: in the spec's end-to-end scenario the result scored
3.0 also clears the 2.5 floor and is selected, so the selected context is
not "the uploaded document plus only the 4.0 result". -/
theorem compliance_scenario_includes_score_three :
    is_comparison (queryLower c5query) = true
    ∧ exR30 ∈ chatSelectedContext c5query (some [exLease]) [exR40, exR30, exR10]
    ∧ chatSelectedContext c5query (some [exLease]) [exR40, exR30, exR10]
        ≠ [mkUploadCtx exLease, exR40] := by
  refine ⟨by decide, by decide, by decide⟩

/-- C5 (amended): the query "does this comply with our policy" with one
uploaded document and indexed results scored 4.0, 3.0 and 1.0 classifies
as comparison (and as no other intent), and the selected context is the
uploaded document followed by the results scored 4.0 and 3.0 - exactly
the indexed results above the 2.5 floor; only the 1.0 result is dropped. -/
theorem compliance_scenario_selected_context :
    is_casual (queryLower c5query) = false
    ∧ is_upload_only (queryLower c5query) true = false
    ∧ is_comparison (queryLower c5query) = true
    ∧ is_policy_only (queryLower c5query) true = false
    ∧ chatSelectedContext c5query (some [exLease]) [exR40, exR30, exR10]
        = [mkUploadCtx exLease, exR40, exR30] := by
  refine ⟨by decide, by decide, by decide, by decide, by decide⟩

/-! Section: C8: the fallback source list -/

theorem fallbackAux_length (ds : List CtxDoc) (seen : List String) (n : Nat) :
    (fallbackAux ds seen n).length
      = ((ds.map fun d => d.filename).toFinset \ seen.toFinset).card := by
  induction ds generalizing seen n with
  | nil => simp [fallbackAux]
  | cons d ds ih =>
    by_cases hmem : d.filename ∈ seen
    · rw [fallbackAux, if_pos hmem, ih]
      simp only [List.map_cons, List.toFinset_cons]
      rw [Finset.insert_sdiff_of_mem _ (List.mem_toFinset.mpr hmem)]
    · rw [fallbackAux, if_neg hmem]
      simp only [List.length_cons, ih, List.map_cons, List.toFinset_cons]
      rw [List.toFinset_append]
      have hseen : (seen.toFinset ∪ ([d.filename] : List String).toFinset)
          = insert d.filename seen.toFinset := by
        ext x
        simp only [Finset.mem_union, List.mem_toFinset, List.mem_singleton, Finset.mem_insert]
        tauto
      rw [hseen]
      have hnot : d.filename ∉ seen.toFinset := fun hc => hmem (List.mem_toFinset.mp hc)
      rw [Finset.insert_sdiff_of_not_mem _ hnot]
      have hsplit : (ds.map fun d => d.filename).toFinset \ insert d.filename seen.toFinset
          = ((ds.map fun d => d.filename).toFinset \ seen.toFinset).erase d.filename := by
        ext x
        simp only [Finset.mem_sdiff, Finset.mem_insert, Finset.mem_erase]
        tauto
      rw [hsplit]
      by_cases hd : d.filename ∈ (ds.map fun d => d.filename).toFinset \ seen.toFinset
      · rw [Finset.card_erase_add_one hd, Finset.insert_eq_self.mpr hd]
      · rw [Finset.erase_eq_of_not_mem hd, Finset.card_insert_of_not_mem hd]

theorem fallbackAux_numbers (ds : List CtxDoc) (seen : List String) (n : Nat) :
    (fallbackAux ds seen n).map (fun s => s.citation_number)
      = List.range' n (fallbackAux ds seen n).length := by
  induction ds generalizing seen n with
  | nil => simp [fallbackAux]
  | cons d ds ih =>
    by_cases hmem : d.filename ∈ seen
    · rw [fallbackAux, if_pos hmem, ih]
    · rw [fallbackAux, if_neg hmem]
      simp only [List.map_cons, List.length_cons, List.range'_succ, ih]

/-- C8: whenever the generated text contains no bracketed-integer citation
marker and the context is non-empty, the returned source list is the
fallback list: one entry per distinct context filename, numbered
sequentially from 1. -/
theorem fallback_counts_distinct_filenames (txt : List Char)
    (m : List (Nat × MapEntry)) (ctx : List CtxDoc)
    (h1 : findall txt = []) (h2 : ctx ≠ []) :
    (computeSources txt m ctx).length = (ctx.map fun d => d.filename).dedup.length
    ∧ (computeSources txt m ctx).map (fun s => s.citation_number)
        = List.range' 1 ((ctx.map fun d => d.filename).dedup.length) := by
  have hext : extract_citations txt m = [] := by
    rw [extract_citations, h1]
    simp [dedupFirst, dedupFirstAux, sortByVal, extractAux]
  have hcs : computeSources txt m ctx = fallbackSources ctx := by
    rw [computeSources, hext]
    cases ctx
    · exact absurd rfl h2
    · rfl
  have hlen : (fallbackSources ctx).length = (ctx.map fun d => d.filename).dedup.length := by
    rw [fallbackSources, fallbackAux_length]
    simp [List.card_toFinset]
  refine ⟨by rw [hcs, hlen], ?_⟩
  rw [hcs, ← hlen, fallbackSources, fallbackAux_numbers]

/-- C8 witness: a markerless reply over three context documents carrying
two distinct filenames. -/
theorem fallback_counts_witness :
    (findall (("no markers in this reply").toList) = [] ∧ exCtxDup ≠ [])
    ∧ ((computeSources (("no markers in this reply").toList) exMapOne exCtxDup).length
          = (exCtxDup.map fun d => d.filename).dedup.length
       ∧ (computeSources (("no markers in this reply").toList) exMapOne exCtxDup).map
            (fun s => s.citation_number)
          = List.range' 1 ((exCtxDup.map fun d => d.filename).dedup.length)) :=
  ⟨⟨by decide, by decide⟩,
   fallback_counts_distinct_filenames (("no markers in this reply").toList) exMapOne exCtxDup
     (by decide) (by decide)⟩

/-! Section: C9: search-result content cap -/

/-- C9: every context document produced by the search wrapper - hybrid and
keyword-fallback path alike - has content of at most 5000 characters, and
any document within that bound is rendered by the prompt assembler in full
with no truncation marker, so this path can never trigger the
10000-character ceiling. -/
theorem search_content_capped_5000 (b64 unq : String → String) (rs : List RawResult) :
    (∀ d ∈ searchResults b64 unq rs, d.content.length ≤ 5000)
    ∧ (∀ d ∈ fallbackSearchResults rs, d.content.length ≤ 5000)
    ∧ (∀ d : CtxDoc, d.content.length ≤ 5000 →
        (renderCompanyChunk d).truncMarker = none
        ∧ (renderCompanyChunk d).shown = d.content) := by
  refine ⟨?_, ?_, ?_⟩
  · intro d hd
    obtain ⟨r, -, hr⟩ := List.mem_filterMap.mp hd
    rw [processResult] at hr
    by_cases hc : (contentStr r.content).isEmpty = true
    · rw [if_pos hc] at hr
      exact absurd hr (by simp)
    · rw [if_neg hc] at hr
      have hd2 : d.content = (contentStr r.content).take 5000 := by
        cases Option.some.injEq .. ▸ hr
        rfl
      rw [hd2, List.length_take]
      exact min_le_left _ _
  · intro d hd
    obtain ⟨r, -, hr⟩ := List.mem_filterMap.mp hd
    rw [fallbackResult] at hr
    by_cases hc : (contentStr r.content).isEmpty = true
    · rw [if_pos hc] at hr
      exact absurd hr (by simp)
    · rw [if_neg hc] at hr
      have hd2 : d.content = (contentStr r.content).take 5000 := by
        cases Option.some.injEq .. ▸ hr
        rfl
      rw [hd2, List.length_take]
      exact min_le_left _ _
  · intro d hd
    have hlt : ¬(10000 < d.content.length) := by omega
    constructor
    · rw [renderCompanyChunk]
      simp [hlt]
    · rw [renderCompanyChunk]
      simp [List.take_of_length_le (by omega : d.content.length ≤ 10000)]

/-- C9 witness: the theorem applied to one hybrid-search raw result. -/
theorem search_content_capped_witness :
    exProcessed ∈ searchResults id id [exRaw]
    ∧ exProcessed.content.length ≤ 5000 :=
  ⟨by decide, (search_content_capped_5000 id id [exRaw]).1 exProcessed (by decide)⟩

/-! Section: C10: generation failure and the conversation history -/

theorem histLookup_insertEmpty (h : HistMap) (sid s : String) :
    histLookup (histInsertEmpty h sid) s = histLookup h s := by
  rw [histInsertEmpty]
  by_cases hk : histHasKey h sid = true
  · rw [if_pos hk]
  · rw [if_neg hk]
    rw [histLookup, histLookup, List.find?_append]
    cases hf : h.find? fun p => p.1 == s with
    | some p => simp
    | none =>
      simp only [Option.none_orElse]
      by_cases hs : sid = s
      · subst hs
        have : (h.find? fun p => p.1 == sid) = none := by
          rw [histHasKey] at hk
          exact Option.not_isSome_iff_eq_none.mp hk
        rw [this] at hf
        simp [List.find?]
      · have hbe : (sid == s) = false := by
          cases hb : (sid == s)
          · rfl
          · exact absurd (by simpa using hb) hs
        simp [List.find?, hbe]

theorem histHasKey_insertEmpty (h : HistMap) (sid : String) :
    histHasKey (histInsertEmpty h sid) sid = true := by
  rw [histInsertEmpty]
  by_cases hk : histHasKey h sid = true
  · rw [if_pos hk]
    exact hk
  · rw [if_neg hk, histHasKey, List.find?_append]
    rw [histHasKey] at hk
    rw [Option.not_isSome_iff_eq_none.mp hk]
    simp [List.find?]

theorem histLookup_append_of_hasKey (h : HistMap) (sid : String) (t : TurnRec)
    (hk : histHasKey h sid = true) :
    histLookup (histAppend h sid t) sid = histLookup h sid ++ [t] := by
  induction h with
  | nil => simp [histHasKey, List.find?] at hk
  | cons p ps ih =>
    by_cases hp : (p.1 == sid) = true
    · rw [histAppend, List.map_cons, if_pos hp]
      simp only [histLookup, List.find?_cons, hp]
    · have hbe : (p.1 == sid) = false := by
        cases hb : (p.1 == sid)
        · rfl
        · exact absurd hb hp
      rw [histAppend, List.map_cons, if_neg hp]
      have hk2 : histHasKey ps sid = true := by
        simp only [histHasKey, List.find?_cons, hbe] at hk
        exact hk
      simp only [histLookup, List.find?_cons, hbe]
      exact ih hk2

/-- C10: if the generation collaborator raises, `generate_response` returns
the fixed apology with empty sources and every session's stored
conversation history reads exactly as before the request; the query and
response pair is appended only on the success path, where the session's
history grows by exactly that turn. -/
theorem generation_failure_leaves_history (q : List Char) (ctx : List CtxDoc)
    (sidOpt : Option String) (fid : String) (hist : HistMap) :
    ((generate_response none q ctx sidOpt fid hist).1.answer = apologyAnswer.toList
     ∧ (generate_response none q ctx sidOpt fid hist).1.sources = []
     ∧ ∀ s, histLookup (generate_response none q ctx sidOpt fid hist).2 s = histLookup hist s)
    ∧ ∀ txt, histLookup (generate_response (some txt) q ctx sidOpt fid hist).2 (sidOpt.getD fid)
        = histLookup hist (sidOpt.getD fid) ++ [{ query := q, response := txt }] := by
  refine ⟨⟨rfl, rfl, ?_⟩, ?_⟩
  · intro s
    exact histLookup_insertEmpty hist (sidOpt.getD fid) s
  · intro txt
    show histLookup (histAppend (histInsertEmpty hist (sidOpt.getD fid)) (sidOpt.getD fid)
        { query := q, response := txt }) (sidOpt.getD fid) = _
    rw [histLookup_append_of_hasKey _ _ _ (histHasKey_insertEmpty hist (sidOpt.getD fid))]
    rw [histLookup_insertEmpty]

/-! Section: C1: citation renumbering -/

/-- C1: the enumeration counter of `_extract_citations` advances on every
distinct cited number, valid or not.  With the generated text citing both
`[0]` and `[1]` against a map holding only document 1, the single returned
source carries citation number 2, so the returned numbers are not the
contiguous sequence starting at 1 that the renumbering is documented to
produce; an invalid marker sorting above all valid ones (such as `[99]`)
is dropped harmlessly. -/
theorem extract_citations_numbering_gap :
    ((extract_citations (("[0] [1]").toList) exMapOne).map fun s => s.citation_number) = [2]
    ∧ ((extract_citations (("[99] [1]").toList) exMapOne).map fun s => s.citation_number) = [1]
    ∧ ((extract_citations (("[1] [99]").toList) exMapOne).length = 1
        ∧ (extract_citations (("[0] [1]").toList) exMapOne).length = 1) := by
  refine ⟨by decide, by decide, by decide, by decide⟩
